import Mathlib

/-!
Verification of the couples-gallery application model.

The definitions below are shallow embeddings of the frontend source
(React components under src/) together with a few backend behaviours
that the repository snapshot does not include; every definition whose
doc comment starts with "Modelled from the spec:" embeds such a missing
backend behaviour, taken from the specification text, and everything
else is translated directly from the cited source files.
-/

namespace CouplesGallery

/- ## Permission tiers and the public gallery permission gate (C1) -/

/-- The three share permission levels of the data model
(values read / edit / full used throughout ShareManager.js). -/
inductive Permission
  | read
  | edit
  | full
deriving DecidableEq, Repr

/-- Public gallery operations gated by a share permission tier. -/
inductive GalleryOp
  | view
  | download
  | upload
  | favourite
  | delete
deriving DecidableEq, Repr

/-- Modelled from the spec: the backend permission table of section 4.2
(the server code is absent from the repository snapshot; only its
frontend callers are present).  Every tier may view and download;
upload and favourite require edit or full; delete requires full. -/
def tierAllows : Permission → GalleryOp → Bool
  | _, .view => true
  | _, .download => true
  | .read, .upload => false
  | .edit, .upload => true
  | .full, .upload => true
  | .read, .favourite => false
  | .edit, .favourite => true
  | .full, .favourite => true
  | .read, .delete => false
  | .edit, .delete => false
  | .full, .delete => true

/-- Result of checking one public operation against a resolved share. -/
inductive GateResult
  | ok
  | forbidden
deriving DecidableEq, Repr

/-- Modelled from the spec: a mutating public operation on a valid share
whose tier does not allow it is rejected with Forbidden (error taxonomy,
section 7); an allowed operation proceeds. -/
def gateCheck (p : Permission) (op : GalleryOp) : GateResult :=
  if tierAllows p op then .ok else .forbidden

/-- The gallery payload the public client receives from
GET /api/gallery/(token) (fields read by GalleryPage in part_005). -/
structure GalleryInfo where
  folder_id : String
  folder_name : String
  permission : Permission
deriving DecidableEq, Repr

/-- GalleryPage (part_005 line 526): the client treats the share as
editable when the resolved permission is edit or full. -/
def canEdit (g : GalleryInfo) : Bool :=
  g.permission == .edit || g.permission == .full

/-- The action buttons of the photo-section header rendered by
GalleryPage outside selection mode (part_005 lines 731-798, identified
by their data-testid values): select, slideshow and download-all are
always offered, and the favourites and upload buttons are appended
exactly when canEdit holds. -/
def galleryPhotoActions (g : GalleryInfo) : List String :=
  ["select-btn", "slideshow-btn", "download-all-btn"] ++
    (if canEdit g then ["select-favourites-btn", "upload-btn"] else [])

/-- Claim C1: permission tiers bound public gallery operations — for
every resolved share an upload is rejected with Forbidden exactly when
the permission is read and accepted when it is edit or full, a delete is
accepted only under full (so edit rejects it), and the gallery client
offers the upload and favourites actions exactly when the resolved
permission is edit or full. -/
theorem c1_permission_tiers_bound_operations :
    (∀ p, gateCheck p .upload = .forbidden ↔ p = .read) ∧
    (∀ p, gateCheck p .upload = .ok ↔ (p = .edit ∨ p = .full)) ∧
    (∀ p, gateCheck p .delete = .ok ↔ p = .full) ∧
    gateCheck .edit .delete = .forbidden ∧
    (∀ g : GalleryInfo,
      ("upload-btn" ∈ galleryPhotoActions g ↔
        (g.permission = .edit ∨ g.permission = .full)) ∧
      ("select-favourites-btn" ∈ galleryPhotoActions g ↔
        (g.permission = .edit ∨ g.permission = .full))) := by
  refine ⟨?_, ?_, ?_, rfl, ?_⟩
  · intro p; cases p <;> simp [gateCheck, tierAllows]
  · intro p; cases p <;> simp [gateCheck, tierAllows]
  · intro p; cases p <;> simp [gateCheck, tierAllows]
  · rintro ⟨fid, fname, p⟩
    cases p <;> simp [galleryPhotoActions, canEdit]

/- ## Share token normalization (C2) -/

/-- Character class kept by the regex replace in ShareManager.js: the
lowercase letters a-z and the digits 0-9. -/
def isTokenChar (c : Char) : Bool :=
  ('a'.toNat ≤ c.toNat && c.toNat ≤ 'z'.toNat) ||
    ('0'.toNat ≤ c.toNat && c.toNat ≤ '9'.toNat)

/-- The token cleaning of ShareManager.createShare
(ShareManager.js line 100): lowercase the submitted token, then remove
every character outside a-z and 0-9. -/
def cleanToken (s : String) : String :=
  String.mk ((s.toList.map Char.toLower).filter isTokenChar)

/-- The share-URL preview under the token input applies the identical
expression (ShareManager.js line 350). -/
def sharePreviewToken (s : String) : String :=
  String.mk ((s.toList.map Char.toLower).filter isTokenChar)

/-- Modelled from the spec: the backend lookup normalization (section
4.2 — a submitted token is lowercased and stripped of non-alphanumeric
characters before both creation and lookup; the server code is absent
from the repository snapshot). -/
def lookupNormalize (s : String) : String :=
  String.mk ((s.toList.map Char.toLower).filter isTokenChar)

theorem toLower_of_isTokenChar (c : Char) (h : isTokenChar c = true) :
    c.toLower = c := by
  simp only [isTokenChar, Bool.or_eq_true, Bool.and_eq_true, decide_eq_true_eq] at h
  simp only [Char.toLower]
  rw [if_neg]
  rcases h with ⟨h1, h2⟩ | ⟨h1, h2⟩ <;> simp_all <;> omega

theorem cleanToken_chars (s : String) :
    ∀ c ∈ (cleanToken s).toList, isTokenChar c = true := by
  intro c hc
  exact List.of_mem_filter hc

theorem cleanToken_idem (s : String) :
    cleanToken (cleanToken s) = cleanToken s := by
  unfold cleanToken
  have htl : (String.mk ((s.toList.map Char.toLower).filter isTokenChar)).toList
      = (s.toList.map Char.toLower).filter isTokenChar := rfl
  rw [htl]
  have hmap : ((s.toList.map Char.toLower).filter isTokenChar).map Char.toLower
      = (s.toList.map Char.toLower).filter isTokenChar := by
    rw [List.map_congr_left, List.map_id]
    intro a ha
    exact toLower_of_isTokenChar a (List.of_mem_filter ha)
  rw [hmap, List.filter_eq_self.mpr]
  intro a ha
  exact List.of_mem_filter ha

/-- Claim C2: the token normalization maps every input to a string of
lowercase alphanumerics, is idempotent, sends the two inputs
"Gina Mark 30-10-21" and "ginamark301021" to the same stored token, and
the creation-side cleaning, the preview shown in the admin UI and the
lookup normalization are one and the same function. -/
theorem c2_token_normalization :
    (∀ s, ∀ c ∈ (cleanToken s).toList, isTokenChar c = true) ∧
    (∀ s, cleanToken (cleanToken s) = cleanToken s) ∧
    cleanToken "Gina Mark 30-10-21" = "ginamark301021" ∧
    cleanToken "ginamark301021" = "ginamark301021" ∧
    (∀ s, sharePreviewToken s = cleanToken s ∧ lookupNormalize s = cleanToken s) := by
  refine ⟨cleanToken_chars, cleanToken_idem, by decide, by decide, ?_⟩
  intro s
  exact ⟨rfl, rfl⟩

/- ## Public gallery failure rendering (C3) -/

/-- An HTTP response as seen by the frontend fetch calls: a status code
and an opaque body. -/
structure HttpResponse where
  status : ℕ
  body : String
deriving DecidableEq, Repr

/-- The ok flag of the fetch API: status in the 200-299 range. -/
def HttpResponse.isOk (r : HttpResponse) : Bool :=
  200 ≤ r.status && r.status < 300

/-- fetchGallery (part_005 lines 248-259, identical in part_001 lines
37-48): a non-ok response of the token resolution throws the fixed
message "Gallery not found", which lands in the error state; an ok
response stores the payload as the gallery state. -/
def fetchGalleryResult (res : HttpResponse) : Except String String :=
  if res.isOk then Except.ok res.body else Except.error "Gallery not found"

/-- What GalleryPage renders from the outcome of the gallery fetch. -/
inductive GalleryRender
  | notFoundPage (heading message : String)
  | galleryPage (body : String)
deriving DecidableEq, Repr

/-- GalleryPage error branch (part_005 lines 543-555): whenever the
error state is set — whatever message it carries — the component renders
the fixed heading "Gallery Not Found" with the fixed explanation text;
otherwise it renders the gallery. -/
def renderGallery : Except String String → GalleryRender
  | .error _ =>
      .notFoundPage "Gallery Not Found"
        "This gallery link may have expired or been removed."
  | .ok body => .galleryPage body

/-- Claim C3: failure-cause indistinguishability — any two public
gallery requests whose token resolution fails (any non-ok response,
whatever its status or body) render the identical fixed
"Gallery Not Found" page, so the visible outcome does not depend on the
cause of the failure. -/
theorem c3_failure_indistinguishability (r1 r2 : HttpResponse)
    (h1 : r1.isOk = false) (h2 : r2.isOk = false) :
    renderGallery (fetchGalleryResult r1) = renderGallery (fetchGalleryResult r2) ∧
    renderGallery (fetchGalleryResult r1) =
      .notFoundPage "Gallery Not Found"
        "This gallery link may have expired or been removed." := by
  simp [fetchGalleryResult, h1, h2, renderGallery]

/-- Witness for C3 at two concrete failed resolutions with different
causes: a token that never existed and a share whose folder was
deleted both yield the very same rendered page. -/
theorem c3_failure_indistinguishability_witness :
    renderGallery (fetchGalleryResult ⟨404, "no share matches this token"⟩) =
      renderGallery (fetchGalleryResult ⟨404, "share exists but folder deleted"⟩) ∧
    renderGallery (fetchGalleryResult ⟨404, "no share matches this token"⟩) =
      .notFoundPage "Gallery Not Found"
        "This gallery link may have expired or been removed." :=
  c3_failure_indistinguishability
    ⟨404, "no share matches this token"⟩
    ⟨404, "share exists but folder deleted"⟩ (by decide) (by decide)

/- ## The Clear All handler of the activity log (C4) -/

/-- The function-valued bindings declared in the body of the
ActivityLogs component (src/docker/frontend/src/components/admin/
ActivityLogs.js): fetchLogs at line 61, handleSearch at line 85 and
formatDate at line 103.  No clearLogs binding exists: the statements at
lines 89-101 that were meant to be its body sit orphaned after the
closing brace of handleSearch, outside any function declaration, with
await used outside an async context. -/
def activityLogsHandlers : List String :=
  ["fetchLogs", "handleSearch", "formatDate"]

/-- The identifier referenced by the onClick of the Clear All Logs
confirmation action (ActivityLogs.js line 274). -/
def clearAllConfirmHandler : String := "clearLogs"

/-- Claim C4 (code bug): the Clear All confirmation references the
identifier clearLogs, but the component declares no such handler — the
function header was lost, leaving its intended body orphaned — so the
confirmed action does not invoke a well-defined handler. -/
theorem c4_clearLogs_handler_missing :
    clearAllConfirmHandler ∉ activityLogsHandlers := by decide

/- ## Batch upload independence (C5) -/

/-- One file of an upload batch: its name and whether its individual
POST to the upload endpoint succeeds. -/
structure UploadAttempt where
  name : String
  succeeds : Bool
deriving DecidableEq, Repr

/-- The upload loop of FolderManager.onDrop (FolderManager.js lines
299-370): every file of the batch is attempted in order; a successful
upload increments the completed counter, a failed one produces the
per-file error toast "Failed to upload (name)" and the loop continues
with the next file (the catch block is explicitly "Continue with next
file").  Returns the completed count and the failure toasts.  The
public-gallery loop handleUpload (part_005 lines 213-246) aggregates
the same way. -/
def runUploadLoop (batch : List UploadAttempt) : ℕ × List String :=
  batch.foldl
    (fun acc f =>
      if f.succeeds then (acc.1 + 1, acc.2)
      else (acc.1, acc.2 ++ ["Failed to upload " ++ f.name]))
    (0, [])

/-- Modelled from the spec: the backend upload endpoint (server code
absent from the repository snapshot) treats each file of a batch as an
independent operation — a successful upload creates exactly one file
record and a failed one creates none (section 4.3, partial-batch
failure). -/
def uploadRecordsCreated (batch : List UploadAttempt) : ℕ :=
  (batch.filter (fun f => f.succeeds)).length

theorem runUploadLoop_foldl (batch : List UploadAttempt) (n : ℕ) (msgs : List String) :
    batch.foldl
      (fun acc f =>
        if f.succeeds then (acc.1 + 1, acc.2)
        else (acc.1, acc.2 ++ ["Failed to upload " ++ f.name]))
      (n, msgs) =
    (n + (batch.filter (fun f => f.succeeds)).length,
     msgs ++ (batch.filter (fun f => !f.succeeds)).map
       (fun f => "Failed to upload " ++ f.name)) := by
  induction batch generalizing n msgs with
  | nil => simp
  | cons f rest ih =>
    by_cases hf : f.succeeds
    · simp [hf, ih, List.filter_cons]
      omega
    · simp [hf, ih, List.filter_cons]

theorem length_filter_add_length_filter_not (batch : List UploadAttempt) :
    (batch.filter (fun f => f.succeeds)).length
      + (batch.filter (fun f => !f.succeeds)).length = batch.length := by
  induction batch with
  | nil => rfl
  | cons f rest ih =>
    by_cases hf : f.succeeds <;> simp [List.filter_cons, hf] <;> omega

/-- Claim C5: batch upload independence — in a batch of N files where
exactly one upload fails, the loop still completes the other N−1
uploads, exactly N−1 file records are created, and the aggregate report
names exactly the failed file rather than treating the batch as an
all-or-nothing failure. -/
theorem c5_batch_upload_independence (batch : List UploadAttempt)
    (h : (batch.filter (fun f => !f.succeeds)).length = 1) :
    (runUploadLoop batch).1 = batch.length - 1 ∧
    uploadRecordsCreated batch = batch.length - 1 ∧
    (runUploadLoop batch).2 =
      (batch.filter (fun f => !f.succeeds)).map
        (fun f => "Failed to upload " ++ f.name) := by
  have hsum := length_filter_add_length_filter_not batch
  have hloop : runUploadLoop batch =
      ((batch.filter (fun f => f.succeeds)).length,
       (batch.filter (fun f => !f.succeeds)).map
         (fun f => "Failed to upload " ++ f.name)) := by
    unfold runUploadLoop
    rw [runUploadLoop_foldl]
    simp
  refine ⟨?_, ?_, ?_⟩
  · simp only [hloop]
    omega
  · unfold uploadRecordsCreated
    omega
  · simp only [hloop]

/-- A concrete three-file batch whose middle upload fails. -/
def uploadDemoBatch : List UploadAttempt :=
  [⟨"a.jpg", true⟩, ⟨"b.jpg", false⟩, ⟨"c.jpg", true⟩]

/-- Witness for C5 on the concrete batch: two of three files complete,
two records are created, and only b.jpg is reported failed. -/
theorem c5_batch_upload_independence_witness :
    (runUploadLoop uploadDemoBatch).1 = uploadDemoBatch.length - 1 ∧
    uploadRecordsCreated uploadDemoBatch = uploadDemoBatch.length - 1 ∧
    (runUploadLoop uploadDemoBatch).2 =
      (uploadDemoBatch.filter (fun f => !f.succeeds)).map
        (fun f => "Failed to upload " ++ f.name) :=
  c5_batch_upload_independence uploadDemoBatch (by rfl)

/- ## The print-order cart (C6, C8, C9) -/

/-- A gallery file as passed to the cart (fields read by addToCart). -/
structure FileRec where
  id : String
  name : String
  thumbnail_url : String
deriving DecidableEq, Repr

/-- A print product as passed to the cart (fields read by addToCart). -/
structure ProductRec where
  id : String
  name : String
  size : String
  paper_type : String
  price : ℚ
deriving DecidableEq, Repr

/-- One line of the print cart, exactly the object pushed by addToCart
(PrintOrderCart.js lines 220-230). -/
structure CartItem where
  file_id : String
  file_name : String
  file_thumbnail : String
  product_id : String
  product_name : String
  size : String
  paper_type : String
  price : ℚ
  quantity : ℤ
deriving DecidableEq, Repr

/-- The fresh cart line created for a file/product pair (quantity 1). -/
def newCartItem (file : FileRec) (product : ProductRec) : CartItem :=
  { file_id := file.id, file_name := file.name,
    file_thumbnail := file.thumbnail_url,
    product_id := product.id, product_name := product.name,
    size := product.size, paper_type := product.paper_type,
    price := product.price, quantity := 1 }

/-- Increment the quantity of the cart line at the given index,
modelling the statement that bumps quantity on the found index. -/
def incrQuantityAt : List CartItem → ℕ → List CartItem
  | [], _ => []
  | item :: rest, 0 => { item with quantity := item.quantity + 1 } :: rest
  | item :: rest, n + 1 => item :: incrQuantityAt rest n

/-- addToCart (PrintOrderCart.js lines 210-233; handleAddToCart in
part_005 lines 287-323 performs the identical update on the stored
cart): find the first line with the same file id and product id — if
one exists its quantity is incremented, otherwise a fresh line with
quantity 1 is appended at the end. -/
def addToCart (cart : List CartItem) (file : FileRec) (product : ProductRec) :
    List CartItem :=
  match cart.findIdx?
      (fun item => item.file_id == file.id && item.product_id == product.id) with
  | some i => incrQuantityAt cart i
  | none => cart ++ [newCartItem file product]

/-- updateQuantity (PrintOrderCart.js lines 235-242): add the delta to
the quantity of the line at the index and remove the line when the
result drops to zero or below; an index with no line leaves the cart
unchanged (the UI only produces indices of rendered lines). -/
def updateQuantity (cart : List CartItem) (index : ℕ) (delta : ℤ) :
    List CartItem :=
  match cart[index]? with
  | none => cart
  | some item =>
    if item.quantity + delta ≤ 0 then cart.eraseIdx index
    else cart.set index { item with quantity := item.quantity + delta }

/-- removeItem (PrintOrderCart.js lines 244-248): splice out the line
at the index. -/
def removeItem (cart : List CartItem) (index : ℕ) : List CartItem :=
  cart.eraseIdx index

/-- The identity of a cart line: its file/product pair. -/
def itemKey (item : CartItem) : String × String :=
  (item.file_id, item.product_id)

/-- The cart invariant of claim C9: every line has quantity at least 1
and no two lines share a file/product pair. -/
def CartWF (cart : List CartItem) : Prop :=
  (∀ item ∈ cart, 1 ≤ item.quantity) ∧ (cart.map itemKey).Nodup

/-- The three cart operations offered by the UI. -/
inductive CartOp
  | add (file : FileRec) (product : ProductRec)
  | update (index : ℕ) (delta : ℤ)
  | remove (index : ℕ)

/-- Apply one cart operation. -/
def applyCartOp (cart : List CartItem) : CartOp → List CartItem
  | .add file product => addToCart cart file product
  | .update index delta => updateQuantity cart index delta
  | .remove index => removeItem cart index

/-- Run a sequence of cart operations from the empty cart. -/
def runCartOps (ops : List CartOp) : List CartItem :=
  ops.foldl applyCartOp []

theorem incrQuantityAt_map_key (l : List CartItem) (i : ℕ) :
    (incrQuantityAt l i).map itemKey = l.map itemKey := by
  induction l generalizing i with
  | nil => rfl
  | cons x xs ih =>
    cases i with
    | zero => simp [incrQuantityAt, itemKey]
    | succ n => simp [incrQuantityAt, ih]

theorem incrQuantityAt_quantity_ge (l : List CartItem) (i : ℕ)
    (h : ∀ x ∈ l, 1 ≤ x.quantity) :
    ∀ x ∈ incrQuantityAt l i, 1 ≤ x.quantity := by
  induction l generalizing i with
  | nil => simp [incrQuantityAt]
  | cons y ys ih =>
    cases i with
    | zero =>
      intro x hx
      rcases List.mem_cons.1 hx with rfl | hx
      · have := h y (List.mem_cons_self _ _)
        simp
        omega
      · exact h x (List.mem_cons_of_mem _ hx)
    | succ n =>
      intro x hx
      rcases List.mem_cons.1 hx with rfl | hx
      · exact h x (List.mem_cons_self _ _)
      · exact ih n (fun z hz => h z (List.mem_cons_of_mem _ hz)) x hx

theorem set_getElem?_self {α : Type} :
    ∀ (l : List α) (i : ℕ) (a : α), l[i]? = some a → l.set i a = l
  | [], _, _, h => by simp at h
  | x :: xs, 0, a, h => by
    simp at h
    simp [h]
  | x :: xs, n + 1, a, h => by
    simp at h
    simp [List.set_cons_succ, set_getElem?_self xs n a h]

theorem cartWF_addToCart (cart : List CartItem) (file : FileRec)
    (product : ProductRec) (h : CartWF cart) :
    CartWF (addToCart cart file product) := by
  obtain ⟨hq, hk⟩ := h
  unfold addToCart
  cases hfind : cart.findIdx?
      (fun item => item.file_id == file.id && item.product_id == product.id) with
  | some i =>
    exact ⟨incrQuantityAt_quantity_ge cart i hq,
      by rw [incrQuantityAt_map_key]; exact hk⟩
  | none =>
    rw [List.findIdx?_eq_none_iff] at hfind
    constructor
    · intro x hx
      rcases List.mem_append.1 hx with hx | hx
      · exact hq x hx
      · simp at hx
        subst hx
        simp [newCartItem]
    · rw [List.map_append]
      refine List.Nodup.append hk (by simp) ?_
      intro k hk1 hk2
      simp at hk1 hk2
      obtain ⟨x, hx, rfl⟩ := hk1
      have hpred := hfind x hx
      simp [newCartItem, itemKey] at hk2 ⊢
      simp only [Bool.and_eq_false_iff, beq_eq_false_iff_ne, ne_eq] at hpred
      rcases hpred with h1 | h1
      · exact absurd hk2.1 h1
      · exact absurd hk2.2 h1

theorem cartWF_updateQuantity (cart : List CartItem) (index : ℕ) (delta : ℤ)
    (h : CartWF cart) : CartWF (updateQuantity cart index delta) := by
  obtain ⟨hq, hk⟩ := h
  unfold updateQuantity
  cases hget : cart[index]? with
  | none => exact ⟨hq, hk⟩
  | some item =>
    by_cases hle : item.quantity + delta ≤ 0
    · simp only [hle, if_true]
      refine ⟨fun x hx => hq x ((cart.eraseIdx_sublist index).subset hx), ?_⟩
      exact ((cart.eraseIdx_sublist index).map itemKey).nodup hk
    · simp only [hle, if_false]
      constructor
      · intro x hx
        rcases List.mem_or_eq_of_mem_set hx with hx | rfl
        · exact hq x hx
        · simp
          omega
      · rw [List.map_set]
        have hkey : itemKey { item with quantity := item.quantity + delta }
            = itemKey item := rfl
        rw [hkey, set_getElem?_self]
        · exact hk
        · simp [hget]

theorem cartWF_removeItem (cart : List CartItem) (index : ℕ)
    (h : CartWF cart) : CartWF (removeItem cart index) := by
  obtain ⟨hq, hk⟩ := h
  refine ⟨fun x hx => hq x ((cart.eraseIdx_sublist index).subset hx), ?_⟩
  exact ((cart.eraseIdx_sublist index).map itemKey).nodup hk

/-- Claim C9: after every finite sequence of addToCart, updateQuantity
and removeItem operations starting from the empty cart, every line has
quantity at least 1 and the cart holds at most one line per
file/product pair. -/
theorem c9_cart_invariant (ops : List CartOp) :
    (∀ item ∈ runCartOps ops, 1 ≤ item.quantity) ∧
    ((runCartOps ops).map itemKey).Nodup := by
  show CartWF (runCartOps ops)
  unfold runCartOps
  suffices h : ∀ cart, CartWF cart → CartWF (ops.foldl applyCartOp cart) by
    exact h [] ⟨by simp, by simp⟩
  induction ops with
  | nil => exact fun cart h => h
  | cons op rest ih =>
    intro cart h
    apply ih
    cases op with
    | add file product => exact cartWF_addToCart cart file product h
    | update index delta => exact cartWF_updateQuantity cart index delta h
    | remove index => exact cartWF_removeItem cart index h

/- ## Order totals and submission (C6) -/

/-- The flat shipping fee (PrintOrderCart.js line 162). -/
def SHIPPING_FEE : ℚ := 2.50

/-- The minimum order subtotal (PrintOrderCart.js line 163). -/
def MIN_ORDER : ℚ := 15.00

/-- The cart subtotal (PrintOrderCart.js line 250): the reduce summing
price times quantity over the cart lines. -/
def cartSubtotal (cart : List CartItem) : ℚ :=
  cart.foldl (fun sum item => sum + item.price * item.quantity) 0

/-- The cart total (PrintOrderCart.js line 251): subtotal plus the
flat shipping fee. -/
def cartTotal (cart : List CartItem) : ℚ :=
  cartSubtotal cart + SHIPPING_FEE

/-- The six order statuses (STATUS_CONFIG of OrdersManager.js and the
data model). -/
inductive OrderStatus
  | pending
  | paid
  | processing
  | shipped
  | completed
  | cancelled
deriving DecidableEq, Repr

/-- One item of the submitted order body, exactly the projection taken
by submitOrder (PrintOrderCart.js lines 291-300). -/
structure OrderItem where
  file_id : String
  file_name : String
  product_id : String
  product_name : String
  size : String
  paper_type : String
  quantity : ℤ
  price : ℚ
deriving DecidableEq, Repr

/-- The projection of a cart line into an order item (the items map of
submitOrder). -/
def orderItemOfCartItem (item : CartItem) : OrderItem :=
  { file_id := item.file_id, file_name := item.file_name,
    product_id := item.product_id, product_name := item.product_name,
    size := item.size, paper_type := item.paper_type,
    quantity := item.quantity, price := item.price }

/-- The order body posted to /api/orders by submitOrder
(PrintOrderCart.js lines 274-308): the share token, customer details,
the projected cart items and the flat shipping fee. -/
structure OrderData where
  share_token : String
  customer_email : String
  delivery_address : String
  items : List OrderItem
  shipping : ℚ
deriving DecidableEq, Repr

/-- Build the order body from the cart, as submitOrder does. -/
def submitOrderData (shareToken email address : String)
    (cart : List CartItem) : OrderData :=
  { share_token := shareToken, customer_email := email,
    delivery_address := address,
    items := cart.map orderItemOfCartItem, shipping := SHIPPING_FEE }

/-- Sum of price times quantity over the submitted items. -/
def orderItemsSubtotal (items : List OrderItem) : ℚ :=
  items.foldl (fun sum item => sum + item.price * item.quantity) 0

/-- A stored order as the admin later reads it back. -/
structure StoredOrder where
  subtotal : ℚ
  shipping : ℚ
  total : ℚ
  status : OrderStatus
deriving DecidableEq, Repr

/-- Modelled from the spec: the backend POST /api/orders handler
(server code absent from the repository snapshot) stores the order with
subtotal equal to the sum of price times quantity over the submitted
items, the submitted shipping, total equal to subtotal plus shipping,
and status pending (data model section 3 and the scenario of section
8). -/
def createOrder (od : OrderData) : StoredOrder :=
  { subtotal := orderItemsSubtotal od.items, shipping := od.shipping,
    total := orderItemsSubtotal od.items + od.shipping,
    status := .pending }

theorem orderItemsSubtotal_map (cart : List CartItem) :
    orderItemsSubtotal (cart.map orderItemOfCartItem) = cartSubtotal cart := by
  unfold orderItemsSubtotal cartSubtotal
  rw [List.foldl_map]
  rfl

/-- Claim C6: for every submitted print order the stored subtotal is
the sum over cart lines of price times quantity, the stored shipping is
the flat fee 2.50, the stored total is subtotal plus shipping (so a
cart with subtotal 12.00 yields total 14.50), and the new order has
status pending. -/
theorem c6_order_totals (shareToken email address : String)
    (cart : List CartItem) :
    (createOrder (submitOrderData shareToken email address cart)).subtotal
      = cartSubtotal cart ∧
    (createOrder (submitOrderData shareToken email address cart)).shipping
      = 2.50 ∧
    (createOrder (submitOrderData shareToken email address cart)).total
      = cartSubtotal cart + 2.50 ∧
    (createOrder (submitOrderData shareToken email address cart)).status
      = .pending ∧
    (cartSubtotal cart = 12 →
      (createOrder (submitOrderData shareToken email address cart)).total
        = 14.50) := by
  refine ⟨?_, rfl, ?_, rfl, ?_⟩
  · simp [createOrder, submitOrderData, orderItemsSubtotal_map]
  · simp [createOrder, submitOrderData, orderItemsSubtotal_map, SHIPPING_FEE]
  · intro h12
    simp [createOrder, submitOrderData, orderItemsSubtotal_map, SHIPPING_FEE, h12]
    norm_num

/-- A concrete cart line giving subtotal 12.00: one 6.00 print ordered
twice. -/
def demoCartTwelve : List CartItem :=
  [{ file_id := "f1", file_name := "dance.jpg", file_thumbnail := "/t/f1",
     product_id := "p1", product_name := "8x6 Gloss", size := "8x6",
     paper_type := "gloss", price := 6, quantity := 2 }]

/-- Witness for C6 on a concrete order with subtotal 12.00: shipping
2.50, total 14.50, status pending. -/
theorem c6_order_totals_witness :
    (createOrder (submitOrderData "ginamark301021" "a@b.c" "addr"
        demoCartTwelve)).subtotal = cartSubtotal demoCartTwelve ∧
    (createOrder (submitOrderData "ginamark301021" "a@b.c" "addr"
        demoCartTwelve)).shipping = 2.50 ∧
    (createOrder (submitOrderData "ginamark301021" "a@b.c" "addr"
        demoCartTwelve)).total = cartSubtotal demoCartTwelve + 2.50 ∧
    (createOrder (submitOrderData "ginamark301021" "a@b.c" "addr"
        demoCartTwelve)).status = .pending ∧
    (createOrder (submitOrderData "ginamark301021" "a@b.c" "addr"
        demoCartTwelve)).total = 14.50 := by
  have h := c6_order_totals "ginamark301021" "a@b.c" "addr" demoCartTwelve
  have h12 : cartSubtotal demoCartTwelve = 12 := by
    simp [cartSubtotal, demoCartTwelve]
    norm_num
  exact ⟨h.1, h.2.1, h.2.2.1, h.2.2.2.1, h.2.2.2.2 h12⟩

/- ## The minimum-order gate of the cart (C8) -/

/-- The shortfall notice of the cart step (PrintOrderCart.js lines
428-432) is rendered exactly when the subtotal is below the minimum
order. -/
def minOrderShortfallShown (cart : List CartItem) : Bool :=
  decide (cartSubtotal cart < MIN_ORDER)

/-- The amount still needed that the shortfall notice displays. -/
def minOrderShortfall (cart : List CartItem) : ℚ :=
  MIN_ORDER - cartSubtotal cart

/-- The disabled flag of the Continue to Checkout button
(PrintOrderCart.js line 437). -/
def continueToCheckoutDisabled (cart : List CartItem) : Bool :=
  decide (cartSubtotal cart < MIN_ORDER)

/-- The steps of the cart dialog (PrintOrderCart.js line 168). -/
inductive CheckoutStep
  | cart
  | details
  | confirm
deriving DecidableEq, Repr

/-- Clicking Continue to Checkout (PrintOrderCart.js line 436): a
disabled button does nothing, an enabled one moves the dialog to the
details step where submitOrder becomes reachable. -/
def clickContinueToCheckout (cart : List CartItem) (step : CheckoutStep) :
    CheckoutStep :=
  if continueToCheckoutDisabled cart then step else .details

/-- Claim C8: checkout can proceed only when the cart subtotal is at
least 15.00 — below that the Continue button is disabled and a
shortfall notice showing the remaining amount appears, so a cart with
subtotal 12.00 cannot reach the submission step. -/
theorem c8_minimum_order_gate (cart : List CartItem) :
    (continueToCheckoutDisabled cart = true ↔ cartSubtotal cart < 15) ∧
    (minOrderShortfallShown cart = true ↔ cartSubtotal cart < 15) ∧
    minOrderShortfall cart = 15 - cartSubtotal cart ∧
    (cartSubtotal cart = 12 →
      continueToCheckoutDisabled cart = true ∧
      minOrderShortfall cart = 3 ∧
      clickContinueToCheckout cart .cart = .cart) := by
  refine ⟨?_, ?_, ?_, ?_⟩
  · simp [continueToCheckoutDisabled, MIN_ORDER]
    norm_num
  · simp [minOrderShortfallShown, MIN_ORDER]
    norm_num
  · simp [minOrderShortfall, MIN_ORDER]
    norm_num
  · intro h12
    have hlt : cartSubtotal cart < MIN_ORDER := by
      rw [h12, MIN_ORDER]
      norm_num
    refine ⟨by simp [continueToCheckoutDisabled, hlt], ?_, ?_⟩
    · rw [minOrderShortfall, h12, MIN_ORDER]
      norm_num
    · simp [clickContinueToCheckout, continueToCheckoutDisabled, hlt]

/-- Witness for C8 on the concrete cart with subtotal 12.00: Continue
is disabled, the notice shows 3.00 more needed, and clicking leaves the
dialog on the cart step. -/
theorem c8_minimum_order_gate_witness :
    continueToCheckoutDisabled demoCartTwelve = true ∧
    minOrderShortfall demoCartTwelve = 3 ∧
    clickContinueToCheckout demoCartTwelve .cart = .cart := by
  have h12 : cartSubtotal demoCartTwelve = 12 := by
    simp [cartSubtotal, demoCartTwelve]
    norm_num
  exact (c8_minimum_order_gate demoCartTwelve).2.2.2 h12

/- ## Order status updates (C7) -/

/-- The options offered by the Update Status select of an expanded
order (OrdersManager.js lines 316-321): every one of the six statuses,
whatever the current status of the order. -/
def statusSelectOptions : List OrderStatus :=
  [.pending, .paid, .processing, .shipped, .completed, .cancelled]

/-- The request built by updateStatus (OrdersManager.js lines 72-89):
an authorized PUT to /api/orders/(id)/status carrying the chosen
status. -/
structure StatusUpdateRequest where
  order_id : String
  http_method : String
  new_status : OrderStatus
  admin_auth : Bool
deriving DecidableEq, Repr

/-- updateStatus always submits the chosen status: it builds the PUT
request from the order id and the selected value alone, with the admin
bearer header attached. -/
def updateStatusRequest (orderId : String) (newStatus : OrderStatus) :
    StatusUpdateRequest :=
  { order_id := orderId, http_method := "PUT", new_status := newStatus,
    admin_auth := true }

/-- The possible visible outcomes of a status update attempt. -/
inductive StatusUpdateOutcome
  | applied (s : OrderStatus)
  | rejected
  | silentlyIgnored
deriving DecidableEq, Repr

/-- Response handling of updateStatus: an ok response reports the
applied status and refetches, any other response reports a failure
toast; no branch drops the attempt silently. -/
def handleStatusResponse (newStatus : OrderStatus) (resOk : Bool) :
    StatusUpdateOutcome :=
  if resOk then .applied newStatus else .rejected

/-- Claim C7: order status updates are admin-only and every admin
attempt to set any of the six statuses — including setting pending on a
shipped order — is submitted as an authorized PUT carrying exactly the
chosen status whatever the current status is, and its outcome is either
applied or rejected, never silently ignored. -/
theorem c7_status_updates_never_silent (orderId : String)
    (target : OrderStatus) :
    target ∈ statusSelectOptions ∧
    (updateStatusRequest orderId target).http_method = "PUT" ∧
    (updateStatusRequest orderId target).admin_auth = true ∧
    (updateStatusRequest orderId target).new_status = target ∧
    (∀ resOk, handleStatusResponse target resOk ≠ .silentlyIgnored) ∧
    (∀ resOk, handleStatusResponse target resOk = .applied target ∨
      handleStatusResponse target resOk = .rejected) := by
  refine ⟨?_, rfl, rfl, rfl, ?_, ?_⟩
  · cases target <;> simp [statusSelectOptions]
  · intro resOk
    cases resOk <;> simp [handleStatusResponse]
  · intro resOk
    cases resOk <;> simp [handleStatusResponse]

/- ## The two formatBytes copies (C10) -/

/-- The unit list of the FolderManager copy of formatBytes
(FolderManager.js line 46): four entries. -/
def folderManagerUnits : List String := ["Bytes", "KB", "MB", "GB"]

/-- The unit list of the DashboardHome copy of formatBytes
(part_004 line 12): five entries, adding TB. -/
def dashboardUnits : List String := ["Bytes", "KB", "MB", "GB", "TB"]

/-- The unit index both copies compute for a non-zero byte count: the
floor of the base-1024 logarithm (the expression
floor(log(bytes) / log(1024)) shared verbatim by both copies, read in
exact arithmetic). -/
def byteUnitIndex (bytes : ℕ) : ℕ := Nat.log 1024 bytes

/-- The numeric part both copies display: bytes divided by 1024 to the
unit index, rounded to two decimals (the shared expression
parseFloat((bytes / pow(1024, i)).toFixed(2))). -/
def byteAmount (bytes i : ℕ) : ℚ :=
  ((round ((bytes : ℚ) * 100 / 1024 ^ i) : ℤ) : ℚ) / 100

/-- The shared body of both formatBytes copies, parametrized by the
unit list, which is the only difference between them: zero maps to
"0 Bytes", any other count to the rounded amount followed by the unit
at the computed index — an index past the end of the list yields the
string "undefined", as the out-of-range array access does in the
original. -/
def formatBytesWith (sizes : List String) (bytes : ℕ) : String :=
  if bytes = 0 then "0 Bytes"
  else
    toString (byteAmount bytes (byteUnitIndex bytes)) ++ " " ++
      sizes.getD (byteUnitIndex bytes) "undefined"

/-- formatBytes of FolderManager.js (lines 43-49). -/
def formatBytesFolderManager (bytes : ℕ) : String :=
  formatBytesWith folderManagerUnits bytes

/-- formatBytes of DashboardHome (part_004 lines 9-15). -/
def formatBytesDashboard (bytes : ℕ) : String :=
  formatBytesWith dashboardUnits bytes

theorem byteUnitIndex_lt_four (b : ℕ) (hb : b ≠ 0) (h : b < 2 ^ 40) :
    byteUnitIndex b < 4 := by
  apply Nat.log_lt_of_lt_pow hb
  calc b < 2 ^ 40 := h
    _ ≤ 1024 ^ 4 := by norm_num

theorem byteUnitIndex_2_40 : byteUnitIndex 1099511627776 = 4 := by
  apply Nat.log_eq_of_pow_le_of_lt_pow <;> norm_num

theorem byteUnitIndex_2_50 : byteUnitIndex 1125899906842624 = 5 := by
  apply Nat.log_eq_of_pow_le_of_lt_pow <;> norm_num

theorem byteAmount_2_40 : byteAmount 1099511627776 4 = 1 := by
  unfold byteAmount
  norm_num [round_eq]

theorem byteAmount_2_50 : byteAmount 1125899906842624 5 = 1 := by
  unfold byteAmount
  norm_num [round_eq]

/-- Claim C10 counterexample: the claim has the DashboardHome copy
selecting TB at and above 2 ^ 40, but at the byte count 2 ^ 50 — which
is at least 2 ^ 40 — the computed index 5 is past the end of the
five-element DashboardHome list too, so that copy does not select TB
there; in fact both copies return the identical string at 2 ^ 50. -/
theorem c10_counterexample_dashboard_not_tb :
    2 ^ 40 ≤ (2 ^ 50 : ℕ) ∧
    byteUnitIndex (2 ^ 50) = 5 ∧
    dashboardUnits.getD (byteUnitIndex (2 ^ 50)) "undefined" ≠ "TB" ∧
    formatBytesFolderManager (2 ^ 50) = formatBytesDashboard (2 ^ 50) := by
  have h5 : byteUnitIndex (2 ^ 50) = 5 := byteUnitIndex_2_50
  refine ⟨by norm_num, h5, by rw [h5]; decide, ?_⟩
  show formatBytesFolderManager 1125899906842624 = formatBytesDashboard 1125899906842624
  unfold formatBytesFolderManager formatBytesDashboard formatBytesWith
  rw [if_neg (by norm_num), if_neg (by norm_num)]
  simp only [byteUnitIndex_2_50, byteAmount_2_50]
  decide

/-- Claim C10 (amended): the two formatBytes copies return the same
string for every byte count below 2 ^ 40; at and above 2 ^ 40 the
FolderManager copy indexes past the end of its four-element unit list,
the DashboardHome copy selects TB exactly on the range from 2 ^ 40
below 2 ^ 50 (above that its index passes the end of its own list as
well), and the two definitions are not equal on all inputs — they
differ at 2 ^ 40. -/
theorem c10_formatBytes_refinement :
    (∀ b : ℕ, b < 2 ^ 40 →
      formatBytesFolderManager b = formatBytesDashboard b) ∧
    (∀ b : ℕ, 2 ^ 40 ≤ b → 4 ≤ byteUnitIndex b ∧
      folderManagerUnits.getD (byteUnitIndex b) "undefined" = "undefined") ∧
    (∀ b : ℕ, 2 ^ 40 ≤ b → b < 2 ^ 50 →
      dashboardUnits.getD (byteUnitIndex b) "undefined" = "TB") ∧
    formatBytesFolderManager (2 ^ 40) ≠ formatBytesDashboard (2 ^ 40) := by
  refine ⟨?_, ?_, ?_, ?_⟩
  · intro b h
    unfold formatBytesFolderManager formatBytesDashboard formatBytesWith
    by_cases hb : b = 0
    · simp [hb]
    · simp only [hb, if_false]
      have hi : byteUnitIndex b < 4 := byteUnitIndex_lt_four b hb h
      congr 1
      interval_cases hidx : byteUnitIndex b <;> rfl
  · intro b h
    have h4 : 4 ≤ byteUnitIndex b := by
      unfold byteUnitIndex
      rw [← Nat.pow_le_iff_le_log (by norm_num) (by positivity)]
      calc (1024 : ℕ) ^ 4 = 2 ^ 40 := by norm_num
        _ ≤ b := h
    refine ⟨h4, ?_⟩
    apply List.getD_eq_default
    simp [folderManagerUnits]
    omega
  · intro b h1 h2
    have hidx : byteUnitIndex b = 4 := by
      apply Nat.log_eq_of_pow_le_of_lt_pow
      · calc (1024 : ℕ) ^ 4 = 2 ^ 40 := by norm_num
          _ ≤ b := h1
      · calc b < 2 ^ 50 := h2
          _ = 1024 ^ 5 := by norm_num
    rw [hidx]
    rfl
  · show formatBytesFolderManager 1099511627776 ≠ formatBytesDashboard 1099511627776
    unfold formatBytesFolderManager formatBytesDashboard formatBytesWith
    rw [if_neg (by norm_num), if_neg (by norm_num)]
    simp only [byteUnitIndex_2_40, byteAmount_2_40]
    decide

/-- Witness for C10 (amended) at concrete inputs: the copies agree at
one mebibyte, the FolderManager copy is out of range at 2 ^ 41 while
the DashboardHome copy shows TB there. -/
theorem c10_formatBytes_refinement_witness :
    formatBytesFolderManager 1048576 = formatBytesDashboard 1048576 ∧
    (4 ≤ byteUnitIndex (2 ^ 41) ∧
      folderManagerUnits.getD (byteUnitIndex (2 ^ 41)) "undefined"
        = "undefined") ∧
    dashboardUnits.getD (byteUnitIndex (2 ^ 41)) "undefined" = "TB" :=
  ⟨c10_formatBytes_refinement.1 1048576 (by norm_num),
   c10_formatBytes_refinement.2.1 (2 ^ 41) (by norm_num),
   c10_formatBytes_refinement.2.2.1 (2 ^ 41) (by norm_num) (by norm_num)⟩

end CouplesGallery
